import Mathlib

/-!
Verification of the LBsim optical link budget engine
(`src/backend/calculations.py`, with the inline copy in `src/backend/main.py`).

The Python code computes with IEEE doubles.  We embed it shallowly over `ℚ`:
all field arithmetic (`+`, `-`, `*`, `/`, `** 2`) is exact rational
arithmetic, and the two transcendental primitives the code uses
(`math.log10` and the power `10 ** x`) are abstracted as an explicit
record of functions `FloatOps` threaded through every definition, so the
embedding stays executable and theorems quantify over the primitives.
`math.pi` is embedded as the exact rational value of the double constant.
Python exceptions (`raise ValueError`) become `Except String`.
-/

/-- The transcendental primitives of the Python runtime, abstracted:
`log10 x` stands for `math.log10(x)`, `pow10 t` for `10 ** t`, and
`exp t` for `math.exp(t)`. -/
structure FloatOps where
  log10 : ℚ → ℚ
  pow10 : ℚ → ℚ
  exp : ℚ → ℚ

/-- The value of `math.pi`, the IEEE-754 double nearest π, as an exact rational. -/
def PI : ℚ := 884279719003555 / 281474976710656

/-- Python `db_to_linear`: convert dB to linear scale, `10 ** (db_value / 10)`. -/
def db_to_linear (F : FloatOps) (db_value : ℚ) : ℚ :=
  F.pow10 (db_value / 10)

/-- Python `linear_to_db`: `10 * math.log10(linear_value)`; raises when the
argument is not positive. -/
def linear_to_db (F : FloatOps) (linear_value : ℚ) : Except String ℚ :=
  if linear_value ≤ 0 then .error "Linear value must be positive"
  else .ok (10 * F.log10 linear_value)

/-- Python `mw_to_dbm`: `10 * math.log10(mw)`; raises when the argument is not
positive. -/
def mw_to_dbm (F : FloatOps) (mw : ℚ) : Except String ℚ :=
  if mw ≤ 0 then .error "Power must be positive"
  else .ok (10 * F.log10 mw)

/-- Python `dbm_to_mw`: `10 ** (dbm / 10)`, total. -/
def dbm_to_mw (F : FloatOps) (dbm : ℚ) : ℚ :=
  F.pow10 (dbm / 10)

/-- Python `dbm_to_w`: `dbm_to_mw(dbm) / 1000`. -/
def dbm_to_w (F : FloatOps) (dbm : ℚ) : ℚ :=
  dbm_to_mw F dbm / 1000

/-- Python `w_to_dbm`: `mw_to_dbm(watts * 1000)`. -/
def w_to_dbm (F : FloatOps) (watts : ℚ) : Except String ℚ :=
  mw_to_dbm F (watts * 1000)

/-- Python `calculate_beam_divergence`: `theta = 2.44 * (wavelength / diameter)`,
raising when `diameter_m <= 0` (the check of
`src/backend/calculations.py:57`). -/
def calculate_beam_divergence (wavelength_m diameter_m : ℚ) : Except String ℚ :=
  if diameter_m ≤ 0 then .error "Diameter must be positive"
  else .ok (2.44 * (wavelength_m / diameter_m))

/-- Python `calculate_antenna_gain`: `gain_abs = efficiency * ((pi*D/wavelength)**2)`,
`gain_db = linear_to_db(gain_abs)`, returned as the pair
`(gain_db, gain_abs)`, after the three range checks of the source. -/
def calculate_antenna_gain (F : FloatOps) (efficiency wavelength_m diameter_m : ℚ) :
    Except String (ℚ × ℚ) :=
  if efficiency ≤ 0 ∨ 1 < efficiency then .error "Efficiency must be between 0 and 1"
  else if diameter_m ≤ 0 then .error "Diameter must be positive"
  else if wavelength_m ≤ 0 then .error "Wavelength must be positive"
  else do
    let gain_db ← linear_to_db F (efficiency * (PI * diameter_m / wavelength_m) ^ 2)
    return (gain_db, efficiency * (PI * diameter_m / wavelength_m) ^ 2)

/-- Python `calculate_free_space_path_loss`:
`fspl = ((4*pi*distance)/wavelength)**2`, `fspl_db = linear_to_db(fspl)`,
after the two positivity checks of the source. -/
def calculate_free_space_path_loss (F : FloatOps) (distance_m wavelength_m : ℚ) :
    Except String ℚ :=
  if distance_m ≤ 0 then .error "Distance must be positive"
  else if wavelength_m ≤ 0 then .error "Wavelength must be positive"
  else linear_to_db F ((4 * PI * distance_m / wavelength_m) ^ 2)

/-- Modelled from the spec: the PointingLossModel component (spec §4.3) has
no implementation under `src/` (only fixed pointing-loss-in-dB inputs
appear there), so it is embedded from the spec's words: `0 dB` when the
error angle is absent or zero; otherwise `exponent = −G·θ²`, returning a
capped `1000 dB` when `exponent < −700` or when the linear loss is not
positive, and `|10·log10(exp(exponent))|` otherwise. -/
def pointing_loss (F : FloatOps) (gain_abs : ℚ) (theta : Option ℚ) : ℚ :=
  match theta with
  | none => 0
  | some t =>
    if t = 0 then 0
    else
      if -(gain_abs * t ^ 2) < -700 then 1000
      else
        if F.exp (-(gain_abs * t ^ 2)) ≤ 0 then 1000
        else |10 * F.log10 (F.exp (-(gain_abs * t ^ 2)))|

/-- The input parameter dictionary.  Every key an `Option`: `none` models a
key absent from the Python dict. -/
structure Params where
  tx_power_dbm : Option ℚ
  tx_efficiency : Option ℚ
  rx_efficiency : Option ℚ
  wavelength_m : Option ℚ
  tx_diameter_m : Option ℚ
  rx_diameter_m : Option ℚ
  distance_m : Option ℚ
  implementation_loss_db : Option ℚ
  coupling_loss_db : Option ℚ
  tx_pointing_loss_db : Option ℚ
  rx_pointing_loss_db : Option ℚ
  rx_sensitivity_dbm : Option ℚ
  rx_lna_gain_db : Option ℚ
deriving DecidableEq

/-- The `'inputs'` section of the result dictionary. -/
structure InputsEcho where
  tx_power_dbm : ℚ
  tx_power_mw : ℚ
  tx_efficiency_percent : ℚ
  rx_efficiency_percent : ℚ
  wavelength_nm : ℚ
  wavelength_m : ℚ
  tx_diameter_m : ℚ
  rx_diameter_m : ℚ
  distance_m : ℚ
  distance_km : ℚ
  rx_sensitivity_dbm : Option ℚ
  rx_lna_gain_db : ℚ
deriving DecidableEq

/-- The `'antenna_gains'` section of the result dictionary. -/
structure AntennaGains where
  tx_gain_db : ℚ
  tx_gain_abs : ℚ
  rx_gain_db : ℚ
  rx_gain_abs : ℚ
deriving DecidableEq

/-- The `'beam_divergence'` section of the result dictionary
(`math.degrees(t) = t * 180 / pi`). -/
structure BeamDivergence where
  tx_theta_rad : ℚ
  tx_theta_deg : ℚ
  tx_theta_mrad : ℚ
  rx_theta_rad : ℚ
  rx_theta_deg : ℚ
  rx_theta_mrad : ℚ
deriving DecidableEq

/-- The `'losses'` section of the result dictionary. -/
structure Losses where
  path_loss_db : ℚ
  implementation_loss_db : ℚ
  coupling_loss_db : ℚ
  tx_pointing_loss_db : ℚ
  rx_pointing_loss_db : ℚ
  total_loss_db : ℚ
deriving DecidableEq

/-- The `'received_power'` / `'received_power_with_lna'` sections. -/
structure PowerTriple where
  power_dbm : ℚ
  power_mw : ℚ
  power_w : ℚ
deriving DecidableEq

/-- The `'link_margin'` section of the result dictionary. -/
structure LinkMargin where
  margin_db : Option ℚ
  margin_available : Bool
  link_viable : Option Bool
deriving DecidableEq

/-- The full result dictionary of `calculate_link_budget`. -/
structure Result where
  inputs : InputsEcho
  antenna_gains : AntennaGains
  beam_divergence : BeamDivergence
  losses : Losses
  received_power : PowerTriple
  received_power_with_lna : PowerTriple
  link_margin : LinkMargin
deriving DecidableEq

/-- Python `math.degrees`. -/
def degrees (x : ℚ) : ℚ := x * 180 / PI

/-- The aggregated `errors` list after the presence loop of
`validate_inputs` (`src/backend/calculations.py:260`), in source order. -/
def requiredMissing (p : Params) : List String :=
  (if p.tx_power_dbm = none then ["Missing required field: tx_power_dbm"] else []) ++
  (if p.tx_efficiency = none then ["Missing required field: tx_efficiency"] else []) ++
  (if p.rx_efficiency = none then ["Missing required field: rx_efficiency"] else []) ++
  (if p.wavelength_m = none then ["Missing required field: wavelength_m"] else []) ++
  (if p.tx_diameter_m = none then ["Missing required field: tx_diameter_m"] else []) ++
  (if p.rx_diameter_m = none then ["Missing required field: rx_diameter_m"] else []) ++
  (if p.distance_m = none then ["Missing required field: distance_m"] else [])

/-- The `errors` list accumulated by the range phase of `validate_inputs`
(`src/backend/calculations.py:267`), in source order.  In the source this
phase runs only after the presence phase has passed, so every dictionary
access `params[...]` succeeds; `Option.getD 0` agrees with it there. -/
def rangeErrors (p : Params) : List String :=
  (if ¬(0 < p.tx_efficiency.getD 0 ∧ p.tx_efficiency.getD 0 ≤ 1) then
      ["TX efficiency must be between 0 and 1"] else []) ++
  (if ¬(0 < p.rx_efficiency.getD 0 ∧ p.rx_efficiency.getD 0 ≤ 1) then
      ["RX efficiency must be between 0 and 1"] else []) ++
  (if p.wavelength_m.getD 0 ≤ 0 then ["Wavelength must be positive"] else []) ++
  (if p.tx_diameter_m.getD 0 ≤ 0 then ["TX diameter must be positive"] else []) ++
  (if p.rx_diameter_m.getD 0 ≤ 0 then ["RX diameter must be positive"] else []) ++
  (if p.distance_m.getD 0 ≤ 0 then ["Distance must be positive"] else []) ++
  (if p.rx_lna_gain_db.getD 0 < 0 then
      ["Rx LNA gain must be 0 or positive (enter 0 if no LNA is used)"] else [])

/-- Python `validate_inputs` (`src/backend/calculations.py:243`): presence phase
with early return, then range phase, `(True, None)` on success. -/
def validate_inputs (p : Params) : Bool × Option String :=
  if requiredMissing p ≠ [] then
    (false, some (String.intercalate "; " (requiredMissing p)))
  else if rangeErrors p ≠ [] then
    (false, some (String.intercalate "; " (rangeErrors p)))
  else
    (true, none)

/-- Python `calculate_link_budget` (`src/backend/calculations.py:107`).  The seven
required keys are read with `params[...]` (KeyError on absence, modelled by
the catch-all branch); optional keys with `params.get(key, default)`. -/
def calculate_link_budget (F : FloatOps) (p : Params) : Except String Result :=
  match p.tx_power_dbm, p.tx_efficiency, p.rx_efficiency, p.wavelength_m,
      p.tx_diameter_m, p.rx_diameter_m, p.distance_m with
  | some p_tx_dbm, some tx_efficiency, some rx_efficiency, some wavelength_m,
      some tx_diameter_m, some rx_diameter_m, some distance_m => do
    let impl_loss_db := p.implementation_loss_db.getD 0
    let coupling_loss_db := p.coupling_loss_db.getD 0
    let tx_pointing_loss_db := p.tx_pointing_loss_db.getD 0
    let rx_pointing_loss_db := p.rx_pointing_loss_db.getD 0
    let p_rx_sensitivity_dbm := p.rx_sensitivity_dbm
    let rx_lna_gain_db := p.rx_lna_gain_db.getD 0
    let tx_theta ← calculate_beam_divergence wavelength_m tx_diameter_m
    let rx_theta ← calculate_beam_divergence wavelength_m rx_diameter_m
    let gtx ← calculate_antenna_gain F tx_efficiency wavelength_m tx_diameter_m
    let grx ← calculate_antenna_gain F rx_efficiency wavelength_m rx_diameter_m
    let path_loss_db ← calculate_free_space_path_loss F distance_m wavelength_m
    let total_loss_db := path_loss_db + impl_loss_db + coupling_loss_db +
      tx_pointing_loss_db + rx_pointing_loss_db
    let rcvd_power_dbm := p_tx_dbm + gtx.1 + grx.1 - total_loss_db
    let rcvd_power_lna_dbm := rcvd_power_dbm + rx_lna_gain_db
    let link_margin_db := p_rx_sensitivity_dbm.map (fun s => rcvd_power_lna_dbm - s)
    return {
      inputs := {
        tx_power_dbm := p_tx_dbm
        tx_power_mw := dbm_to_mw F p_tx_dbm
        tx_efficiency_percent := tx_efficiency * 100
        rx_efficiency_percent := rx_efficiency * 100
        wavelength_nm := wavelength_m * 1000000000
        wavelength_m := wavelength_m
        tx_diameter_m := tx_diameter_m
        rx_diameter_m := rx_diameter_m
        distance_m := distance_m
        distance_km := distance_m / 1000
        rx_sensitivity_dbm := p_rx_sensitivity_dbm
        rx_lna_gain_db := rx_lna_gain_db }
      antenna_gains := {
        tx_gain_db := gtx.1
        tx_gain_abs := gtx.2
        rx_gain_db := grx.1
        rx_gain_abs := grx.2 }
      beam_divergence := {
        tx_theta_rad := tx_theta
        tx_theta_deg := degrees tx_theta
        tx_theta_mrad := tx_theta * 1000
        rx_theta_rad := rx_theta
        rx_theta_deg := degrees rx_theta
        rx_theta_mrad := rx_theta * 1000 }
      losses := {
        path_loss_db := path_loss_db
        implementation_loss_db := impl_loss_db
        coupling_loss_db := coupling_loss_db
        tx_pointing_loss_db := tx_pointing_loss_db
        rx_pointing_loss_db := rx_pointing_loss_db
        total_loss_db := total_loss_db }
      received_power := {
        power_dbm := rcvd_power_dbm
        power_mw := dbm_to_mw F rcvd_power_dbm
        power_w := dbm_to_w F rcvd_power_dbm }
      received_power_with_lna := {
        power_dbm := rcvd_power_lna_dbm
        power_mw := dbm_to_mw F rcvd_power_lna_dbm
        power_w := dbm_to_w F rcvd_power_lna_dbm }
      link_margin := {
        margin_db := link_margin_db
        margin_available := link_margin_db.isSome
        link_viable := link_margin_db.map (fun m => decide (0 < m)) } }
  | _, _, _, _, _, _, _ => .error "KeyError: missing required field"

/-- The swap of the transmitter triple with the receiver triple
(efficiency, diameter, fixed pointing loss), all other fields unchanged. -/
def swapEnds (p : Params) : Params :=
  { p with
    tx_efficiency := p.rx_efficiency
    rx_efficiency := p.tx_efficiency
    tx_diameter_m := p.rx_diameter_m
    rx_diameter_m := p.tx_diameter_m
    tx_pointing_loss_db := p.rx_pointing_loss_db
    rx_pointing_loss_db := p.tx_pointing_loss_db }

/-- A concrete instantiation of the transcendental primitives, used to
evaluate the embedding on closed inputs. -/
def idOps : FloatOps := { log10 := id, pow10 := id, exp := id }

/-- The value `calculate_link_budget` returns on present, in-range inputs,
written out explicitly. -/
def budgetResult (F : FloatOps)
    (tp te re wl td rd d impl coupl txp rxp : ℚ)
    (sens : Option ℚ) (lna : ℚ) : Result :=
  let g_tx_db := 10 * F.log10 (te * (PI * td / wl) ^ 2)
  let g_rx_db := 10 * F.log10 (re * (PI * rd / wl) ^ 2)
  let path_loss_db := 10 * F.log10 ((4 * PI * d / wl) ^ 2)
  let total_loss_db := path_loss_db + impl + coupl + txp + rxp
  let rcvd_power_dbm := tp + g_tx_db + g_rx_db - total_loss_db
  let rcvd_power_lna_dbm := rcvd_power_dbm + lna
  let link_margin_db := sens.map (fun s => rcvd_power_lna_dbm - s)
  { inputs := {
      tx_power_dbm := tp
      tx_power_mw := dbm_to_mw F tp
      tx_efficiency_percent := te * 100
      rx_efficiency_percent := re * 100
      wavelength_nm := wl * 1000000000
      wavelength_m := wl
      tx_diameter_m := td
      rx_diameter_m := rd
      distance_m := d
      distance_km := d / 1000
      rx_sensitivity_dbm := sens
      rx_lna_gain_db := lna }
    antenna_gains := {
      tx_gain_db := g_tx_db
      tx_gain_abs := te * (PI * td / wl) ^ 2
      rx_gain_db := g_rx_db
      rx_gain_abs := re * (PI * rd / wl) ^ 2 }
    beam_divergence := {
      tx_theta_rad := 2.44 * (wl / td)
      tx_theta_deg := degrees (2.44 * (wl / td))
      tx_theta_mrad := 2.44 * (wl / td) * 1000
      rx_theta_rad := 2.44 * (wl / rd)
      rx_theta_deg := degrees (2.44 * (wl / rd))
      rx_theta_mrad := 2.44 * (wl / rd) * 1000 }
    losses := {
      path_loss_db := path_loss_db
      implementation_loss_db := impl
      coupling_loss_db := coupl
      tx_pointing_loss_db := txp
      rx_pointing_loss_db := rxp
      total_loss_db := total_loss_db }
    received_power := {
      power_dbm := rcvd_power_dbm
      power_mw := dbm_to_mw F rcvd_power_dbm
      power_w := dbm_to_w F rcvd_power_dbm }
    received_power_with_lna := {
      power_dbm := rcvd_power_lna_dbm
      power_mw := dbm_to_mw F rcvd_power_lna_dbm
      power_w := dbm_to_w F rcvd_power_lna_dbm }
    link_margin := {
      margin_db := link_margin_db
      margin_available := link_margin_db.isSome
      link_viable := link_margin_db.map (fun m => decide (0 < m)) } }

lemma PI_pos : 0 < PI := by norm_num [PI]

lemma bind_ok {α β : Type} (a : α) (f : α → Except String β) :
    (Except.ok a : Except String α) >>= f = f a := rfl

lemma calculate_beam_divergence_ok (wl D : ℚ) (h : 0 < D) :
    calculate_beam_divergence wl D = .ok (2.44 * (wl / D)) := by
  rw [calculate_beam_divergence, if_neg (not_le.mpr h)]

lemma gain_abs_pos (e wl D : ℚ) (he : 0 < e) (hwl : 0 < wl) (hD : 0 < D) :
    0 < e * (PI * D / wl) ^ 2 :=
  mul_pos he (pow_pos (div_pos (mul_pos PI_pos hD) hwl) 2)

lemma calculate_antenna_gain_ok (F : FloatOps) (e wl D : ℚ)
    (he : 0 < e) (he1 : e ≤ 1) (hwl : 0 < wl) (hD : 0 < D) :
    calculate_antenna_gain F e wl D =
      .ok (10 * F.log10 (e * (PI * D / wl) ^ 2), e * (PI * D / wl) ^ 2) := by
  rw [calculate_antenna_gain,
    if_neg (not_or.mpr ⟨not_le.mpr he, not_lt.mpr he1⟩),
    if_neg (not_le.mpr hD), if_neg (not_le.mpr hwl)]
  rw [show linear_to_db F (e * (PI * D / wl) ^ 2) =
      .ok (10 * F.log10 (e * (PI * D / wl) ^ 2)) from by
    rw [linear_to_db, if_neg (not_le.mpr (gain_abs_pos e wl D he hwl hD))]]
  rfl

lemma fspl_pos (d wl : ℚ) (hd : 0 < d) (hwl : 0 < wl) :
    0 < (4 * PI * d / wl) ^ 2 :=
  pow_pos (div_pos (mul_pos (mul_pos (by norm_num) PI_pos) hd) hwl) 2

lemma calculate_free_space_path_loss_ok (F : FloatOps) (d wl : ℚ)
    (hd : 0 < d) (hwl : 0 < wl) :
    calculate_free_space_path_loss F d wl =
      .ok (10 * F.log10 ((4 * PI * d / wl) ^ 2)) := by
  rw [calculate_free_space_path_loss, if_neg (not_le.mpr hd),
    if_neg (not_le.mpr hwl), linear_to_db,
    if_neg (not_le.mpr (fspl_pos d wl hd hwl))]

/-- Master evaluation lemma: on present, in-range inputs the budget
computation succeeds and returns exactly `budgetResult`. -/
lemma calculate_link_budget_ok (F : FloatOps) (p : Params)
    (tp te re wl td rd d : ℚ)
    (h1 : p.tx_power_dbm = some tp) (h2 : p.tx_efficiency = some te)
    (h3 : p.rx_efficiency = some re) (h4 : p.wavelength_m = some wl)
    (h5 : p.tx_diameter_m = some td) (h6 : p.rx_diameter_m = some rd)
    (h7 : p.distance_m = some d)
    (hte : 0 < te) (hte1 : te ≤ 1) (hre : 0 < re) (hre1 : re ≤ 1)
    (hwl : 0 < wl) (htd : 0 < td) (hrd : 0 < rd) (hd : 0 < d) :
    calculate_link_budget F p = .ok (budgetResult F tp te re wl td rd d
      (p.implementation_loss_db.getD 0) (p.coupling_loss_db.getD 0)
      (p.tx_pointing_loss_db.getD 0) (p.rx_pointing_loss_db.getD 0)
      p.rx_sensitivity_dbm (p.rx_lna_gain_db.getD 0)) := by
  rw [calculate_link_budget, h1, h2, h3, h4, h5, h6, h7]
  simp only [calculate_beam_divergence_ok wl td htd,
    calculate_beam_divergence_ok wl rd hrd,
    calculate_antenna_gain_ok F te wl td hte hte1 hwl htd,
    calculate_antenna_gain_ok F re wl rd hre hre1 hwl hrd,
    calculate_free_space_path_loss_ok F d wl hd hwl,
    bind_ok]
  rfl

lemma requiredMissing_eq_nil_iff (p : Params) :
    requiredMissing p = [] ↔
      p.tx_power_dbm ≠ none ∧ p.tx_efficiency ≠ none ∧ p.rx_efficiency ≠ none ∧
      p.wavelength_m ≠ none ∧ p.tx_diameter_m ≠ none ∧ p.rx_diameter_m ≠ none ∧
      p.distance_m ≠ none := by
  unfold requiredMissing
  simp [List.append_eq_nil, ite_eq_right_iff]

lemma rangeErrors_eq_nil_iff (p : Params) :
    rangeErrors p = [] ↔
      (0 < p.tx_efficiency.getD 0 ∧ p.tx_efficiency.getD 0 ≤ 1) ∧
      (0 < p.rx_efficiency.getD 0 ∧ p.rx_efficiency.getD 0 ≤ 1) ∧
      0 < p.wavelength_m.getD 0 ∧ 0 < p.tx_diameter_m.getD 0 ∧
      0 < p.rx_diameter_m.getD 0 ∧ 0 < p.distance_m.getD 0 ∧
      0 ≤ p.rx_lna_gain_db.getD 0 := by
  unfold rangeErrors
  simp [List.append_eq_nil, ite_eq_right_iff, not_le, not_lt]

lemma validate_inputs_eq_true_iff (p : Params) :
    validate_inputs p = (true, none) ↔
      requiredMissing p = [] ∧ rangeErrors p = [] := by
  unfold validate_inputs
  by_cases h1 : requiredMissing p = [] <;> by_cases h2 : rangeErrors p = [] <;>
    simp [h1, h2]

/-- Unpacking of a passed validation into the values and bounds of the
seven required fields (plus the LNA bound). -/
lemma validate_inputs_spec (p : Params) (h : validate_inputs p = (true, none)) :
    ∃ tp te re wl td rd d : ℚ,
      p.tx_power_dbm = some tp ∧ p.tx_efficiency = some te ∧
      p.rx_efficiency = some re ∧ p.wavelength_m = some wl ∧
      p.tx_diameter_m = some td ∧ p.rx_diameter_m = some rd ∧
      p.distance_m = some d ∧
      0 < te ∧ te ≤ 1 ∧ 0 < re ∧ re ≤ 1 ∧ 0 < wl ∧ 0 < td ∧ 0 < rd ∧ 0 < d ∧
      0 ≤ p.rx_lna_gain_db.getD 0 := by
  obtain ⟨hm, hr⟩ := (validate_inputs_eq_true_iff p).mp h
  obtain ⟨m1, m2, m3, m4, m5, m6, m7⟩ := (requiredMissing_eq_nil_iff p).mp hm
  obtain ⟨tp, h1⟩ := Option.ne_none_iff_exists'.mp m1
  obtain ⟨te, h2⟩ := Option.ne_none_iff_exists'.mp m2
  obtain ⟨re, h3⟩ := Option.ne_none_iff_exists'.mp m3
  obtain ⟨wl, h4⟩ := Option.ne_none_iff_exists'.mp m4
  obtain ⟨td, h5⟩ := Option.ne_none_iff_exists'.mp m5
  obtain ⟨rd, h6⟩ := Option.ne_none_iff_exists'.mp m6
  obtain ⟨d, h7⟩ := Option.ne_none_iff_exists'.mp m7
  obtain ⟨⟨r1, r2⟩, ⟨r3, r4⟩, r5, r6, r7, r8, r9⟩ := (rangeErrors_eq_nil_iff p).mp hr
  refine ⟨tp, te, re, wl, td, rd, d, h1, h2, h3, h4, h5, h6, h7, ?_, ?_, ?_, ?_, ?_, ?_, ?_, ?_, r9⟩
  · simpa [h2] using r1
  · simpa [h2] using r2
  · simpa [h3] using r3
  · simpa [h3] using r4
  · simpa [h4] using r5
  · simpa [h5] using r6
  · simpa [h6] using r7
  · simpa [h7] using r8

/-- A concrete valid parameter set (all required fields present and in
range) used to exercise the theorems. -/
def sampleParams : Params :=
  { tx_power_dbm := some 0, tx_efficiency := some 1, rx_efficiency := some 1,
    wavelength_m := some 1, tx_diameter_m := some 1, rx_diameter_m := some 1,
    distance_m := some 1, implementation_loss_db := none, coupling_loss_db := none,
    tx_pointing_loss_db := none, rx_pointing_loss_db := none,
    rx_sensitivity_dbm := some 0, rx_lna_gain_db := some 5 }

/-- The result `calculate_link_budget` produces on `sampleParams`. -/
def sampleResult : Result :=
  budgetResult idOps 0 1 1 1 1 1 1 0 0 0 0 (some 0) 5

lemma sample_budget_eq :
    calculate_link_budget idOps sampleParams = .ok sampleResult :=
  calculate_link_budget_ok idOps sampleParams 0 1 1 1 1 1 1
    rfl rfl rfl rfl rfl rfl rfl
    one_pos le_rfl one_pos le_rfl one_pos one_pos one_pos one_pos

/-- The validator-short-circuit example of the spec: `distance_m` missing
and `tx_efficiency = 2.0` out of range. -/
def missingDistanceParams : Params :=
  { tx_power_dbm := some 34, tx_efficiency := some 2, rx_efficiency := some 1,
    wavelength_m := some 1, tx_diameter_m := some 1, rx_diameter_m := some 1,
    distance_m := none, implementation_loss_db := none, coupling_loss_db := none,
    tx_pointing_loss_db := none, rx_pointing_loss_db := none,
    rx_sensitivity_dbm := none, rx_lna_gain_db := none }

/-- C2: for every linear antenna gain `G` and angle `θ` whose exponent
`−G·θ²` is below `−700`, the pointing-loss model returns the capped
`1000 dB` — for any behaviour of the floating primitives, so no domain
error can propagate — and in particular it returns `1000 dB` at
`G = 1e10`, `θ = 1`. -/
theorem c2_pointing_loss_underflow_cap :
    (∀ (F : FloatOps) (G t : ℚ), -(G * t ^ 2) < -700 →
      pointing_loss F G (some t) = 1000) ∧
    (∀ F : FloatOps, pointing_loss F 1e10 (some 1) = 1000) := by
  have h1 : ∀ (F : FloatOps) (G t : ℚ), -(G * t ^ 2) < -700 →
      pointing_loss F G (some t) = 1000 := by
    intro F G t h
    have ht : ¬ t = 0 := by
      rintro rfl
      norm_num at h
    simp only [pointing_loss, if_neg ht, if_pos h]
  exact ⟨h1, fun F => h1 F 1e10 1 (by norm_num)⟩

theorem c2_witness : pointing_loss idOps 2000 (some 1) = 1000 :=
  c2_pointing_loss_underflow_cap.1 idOps 2000 1 (by norm_num)

/-- C3: `calculate_beam_divergence` returns `2.44·λ/D` for every `D > 0`
and fails whenever `D ≤ 0`. -/
theorem c3_beam_divergence_spec (wl D : ℚ) :
    (0 < D → calculate_beam_divergence wl D = .ok (2.44 * wl / D)) ∧
    (D ≤ 0 → calculate_beam_divergence wl D = .error "Diameter must be positive") := by
  constructor
  · intro h
    rw [calculate_beam_divergence_ok wl D h, mul_div_assoc]
  · intro h
    rw [calculate_beam_divergence, if_pos h]

theorem c3_witness :
    calculate_beam_divergence 5 2 = .ok (2.44 * 5 / 2) ∧
    calculate_beam_divergence 5 (-1) = .error "Diameter must be positive" :=
  ⟨(c3_beam_divergence_spec 5 2).1 (by norm_num),
   (c3_beam_divergence_spec 5 (-1)).2 (by norm_num)⟩

/-- C5: the validator is two-phase collect-then-stop: with any required
field missing it returns exactly the aggregated missing-field errors and
performs no range check; with all required fields present it returns the
aggregated range errors; on the spec's example (missing `distance_m`,
`tx_efficiency = 2.0`) it reports only the missing-field error. -/
theorem c5_validator_two_phase :
    (∀ p : Params, requiredMissing p ≠ [] →
      validate_inputs p = (false, some (String.intercalate "; " (requiredMissing p)))) ∧
    (∀ p : Params, requiredMissing p = [] → rangeErrors p ≠ [] →
      validate_inputs p = (false, some (String.intercalate "; " (rangeErrors p)))) ∧
    validate_inputs missingDistanceParams =
      (false, some "Missing required field: distance_m") := by
  refine ⟨?_, ?_, by decide⟩
  · intro p h
    rw [validate_inputs, if_pos h]
  · intro p h1 h2
    rw [validate_inputs, if_neg (not_not_intro h1), if_pos h2]

theorem c5_witness :
    validate_inputs missingDistanceParams =
      (false, some (String.intercalate "; " (requiredMissing missingDistanceParams))) :=
  c5_validator_two_phase.1 missingDistanceParams (by decide)

/-- C7: with a strictly monotone `log10` primitive,
`calculate_free_space_path_loss` is strictly increasing in distance and
strictly decreasing in wavelength on positive arguments. -/
theorem c7_fspl_monotone (F : FloatOps) (hmono : StrictMono F.log10) :
    (∀ lam d₁ d₂ : ℚ, 0 < lam → 0 < d₁ → d₁ < d₂ →
      ∀ v₁ v₂, calculate_free_space_path_loss F d₁ lam = .ok v₁ →
        calculate_free_space_path_loss F d₂ lam = .ok v₂ → v₁ < v₂) ∧
    (∀ d lam₁ lam₂ : ℚ, 0 < d → 0 < lam₁ → lam₁ < lam₂ →
      ∀ v₁ v₂, calculate_free_space_path_loss F d lam₁ = .ok v₁ →
        calculate_free_space_path_loss F d lam₂ = .ok v₂ → v₂ < v₁) := by
  constructor
  · intro lam d₁ d₂ hlam hd₁ hdlt v₁ v₂ h₁ h₂
    rw [calculate_free_space_path_loss_ok F d₁ lam hd₁ hlam] at h₁
    rw [calculate_free_space_path_loss_ok F d₂ lam (hd₁.trans hdlt) hlam] at h₂
    obtain rfl : v₁ = 10 * F.log10 ((4 * PI * d₁ / lam) ^ 2) := (Except.ok.inj h₁).symm
    obtain rfl : v₂ = 10 * F.log10 ((4 * PI * d₂ / lam) ^ 2) := (Except.ok.inj h₂).symm
    have hbase : 4 * PI * d₁ / lam < 4 * PI * d₂ / lam := by
      apply div_lt_div_of_pos_right _ hlam
      have h4pi : (0:ℚ) < 4 * PI := by
        have := PI_pos
        linarith
      exact (mul_lt_mul_left h4pi).mpr hdlt
    have hpos : (0:ℚ) ≤ 4 * PI * d₁ / lam :=
      le_of_lt (div_pos (mul_pos (mul_pos (by norm_num) PI_pos) hd₁) hlam)
    have := hmono (pow_lt_pow_left hbase hpos (two_ne_zero))
    linarith
  · intro d lam₁ lam₂ hd hlam₁ hlt v₁ v₂ h₁ h₂
    rw [calculate_free_space_path_loss_ok F d lam₁ hd hlam₁] at h₁
    rw [calculate_free_space_path_loss_ok F d lam₂ hd (hlam₁.trans hlt)] at h₂
    obtain rfl : v₁ = 10 * F.log10 ((4 * PI * d / lam₁) ^ 2) := (Except.ok.inj h₁).symm
    obtain rfl : v₂ = 10 * F.log10 ((4 * PI * d / lam₂) ^ 2) := (Except.ok.inj h₂).symm
    have h4pid : (0:ℚ) < 4 * PI * d :=
      mul_pos (mul_pos (by norm_num) PI_pos) hd
    have hbase : 4 * PI * d / lam₂ < 4 * PI * d / lam₁ :=
      div_lt_div_of_pos_left h4pid hlam₁ hlt
    have hpos : (0:ℚ) ≤ 4 * PI * d / lam₂ :=
      le_of_lt (div_pos h4pid (hlam₁.trans hlt))
    have := hmono (pow_lt_pow_left hbase hpos (two_ne_zero))
    linarith

theorem c7_witness :
    10 * idOps.log10 ((4 * PI * 1 / 1) ^ 2) < 10 * idOps.log10 ((4 * PI * 2 / 1) ^ 2) ∧
    10 * idOps.log10 ((4 * PI * 1 / 3) ^ 2) < 10 * idOps.log10 ((4 * PI * 1 / 1) ^ 2) :=
  ⟨(c7_fspl_monotone idOps strictMono_id).1 1 1 2 one_pos one_pos one_lt_two _ _
    (calculate_free_space_path_loss_ok idOps 1 1 one_pos one_pos)
    (calculate_free_space_path_loss_ok idOps 2 1 two_pos one_pos),
   (c7_fspl_monotone idOps strictMono_id).2 1 1 3 one_pos one_pos (by norm_num) _ _
    (calculate_free_space_path_loss_ok idOps 1 1 one_pos one_pos)
    (calculate_free_space_path_loss_ok idOps 1 3 one_pos (by norm_num))⟩

/-- C4: once `validate_inputs` has returned `(True, None)`, the budget
computation completes without any internal domain error: the three
arguments it hands to `linear_to_db` (the two absolute antenna gains and
the squared path ratio) are strictly positive, so the error branches of
the unit helpers are unreachable and the call returns a result. -/
theorem c4_no_domain_error_after_validation (F : FloatOps) (p : Params)
    (h : validate_inputs p = (true, none)) :
    0 < p.tx_efficiency.getD 0 *
        (PI * p.tx_diameter_m.getD 0 / p.wavelength_m.getD 0) ^ 2 ∧
    0 < p.rx_efficiency.getD 0 *
        (PI * p.rx_diameter_m.getD 0 / p.wavelength_m.getD 0) ^ 2 ∧
    0 < (4 * PI * p.distance_m.getD 0 / p.wavelength_m.getD 0) ^ 2 ∧
    ∃ r, calculate_link_budget F p = .ok r := by
  obtain ⟨tp, te, re, wl, td, rd, d, h1, h2, h3, h4, h5, h6, h7,
    hte, hte1, hre, hre1, hwl, htd, hrd, hd, hlna⟩ := validate_inputs_spec p h
  refine ⟨?_, ?_, ?_, ⟨_, calculate_link_budget_ok F p tp te re wl td rd d
    h1 h2 h3 h4 h5 h6 h7 hte hte1 hre hre1 hwl htd hrd hd⟩⟩
  · rw [h2, h4, h5]
    exact gain_abs_pos te wl td hte hwl htd
  · rw [h3, h4, h6]
    exact gain_abs_pos re wl rd hre hwl hrd
  · rw [h4, h7]
    exact fspl_pos d wl hd hwl

theorem c4_witness :
    0 < sampleParams.tx_efficiency.getD 0 *
        (PI * sampleParams.tx_diameter_m.getD 0 / sampleParams.wavelength_m.getD 0) ^ 2 ∧
    0 < sampleParams.rx_efficiency.getD 0 *
        (PI * sampleParams.rx_diameter_m.getD 0 / sampleParams.wavelength_m.getD 0) ^ 2 ∧
    0 < (4 * PI * sampleParams.distance_m.getD 0 / sampleParams.wavelength_m.getD 0) ^ 2 ∧
    ∃ r, calculate_link_budget idOps sampleParams = .ok r :=
  c4_no_domain_error_after_validation idOps sampleParams (by decide)

/-- C1: with sensitivity supplied, `link_margin.margin_db` is the WITH-LNA
received power minus the sensitivity and `link_viable` decides
`margin_db > 0`; with sensitivity absent, both fields are `None`. -/
theorem c1_link_margin_fields (F : FloatOps) (p : Params)
    (h : validate_inputs p = (true, none)) (r : Result)
    (hr : calculate_link_budget F p = .ok r) :
    (∀ s, p.rx_sensitivity_dbm = some s →
      r.link_margin.margin_db = some (r.received_power_with_lna.power_dbm - s) ∧
      r.link_margin.link_viable =
        some (decide (0 < r.received_power_with_lna.power_dbm - s))) ∧
    (p.rx_sensitivity_dbm = none →
      r.link_margin.margin_db = none ∧ r.link_margin.link_viable = none) := by
  obtain ⟨tp, te, re, wl, td, rd, d, h1, h2, h3, h4, h5, h6, h7,
    hte, hte1, hre, hre1, hwl, htd, hrd, hd, hlna⟩ := validate_inputs_spec p h
  have hb := calculate_link_budget_ok F p tp te re wl td rd d
    h1 h2 h3 h4 h5 h6 h7 hte hte1 hre hre1 hwl htd hrd hd
  rw [hr] at hb
  obtain rfl := Except.ok.inj hb
  constructor
  · intro s hs
    rw [hs]
    simp [budgetResult]
  · intro hs
    rw [hs]
    simp [budgetResult]

theorem c1_witness :
    sampleResult.link_margin.margin_db =
      some (sampleResult.received_power_with_lna.power_dbm - 0) ∧
    sampleResult.link_margin.link_viable =
      some (decide (0 < sampleResult.received_power_with_lna.power_dbm - 0)) :=
  (c1_link_margin_fields idOps sampleParams (by decide) sampleResult
    sample_budget_eq).1 0 rfl

/-- C6: the WITH-LNA received power exceeds the unamplified received power
by exactly the configured LNA gain. -/
theorem c6_lna_additivity (F : FloatOps) (p : Params)
    (h : validate_inputs p = (true, none)) (r : Result)
    (hr : calculate_link_budget F p = .ok r) :
    r.received_power_with_lna.power_dbm - r.received_power.power_dbm =
      p.rx_lna_gain_db.getD 0 := by
  obtain ⟨tp, te, re, wl, td, rd, d, h1, h2, h3, h4, h5, h6, h7,
    hte, hte1, hre, hre1, hwl, htd, hrd, hd, hlna⟩ := validate_inputs_spec p h
  have hb := calculate_link_budget_ok F p tp te re wl td rd d
    h1 h2 h3 h4 h5 h6 h7 hte hte1 hre hre1 hwl htd hrd hd
  rw [hr] at hb
  obtain rfl := Except.ok.inj hb
  simp [budgetResult]

theorem c6_witness :
    sampleResult.received_power_with_lna.power_dbm -
      sampleResult.received_power.power_dbm =
      sampleParams.rx_lna_gain_db.getD 0 :=
  c6_lna_additivity idOps sampleParams (by decide) sampleResult sample_budget_eq

/-- C10: the `'inputs'` section echoes the supplied parameters unchanged
(the engine is a pure function of an immutable parameter record). -/
theorem c10_inputs_echo (F : FloatOps) (p : Params)
    (h : validate_inputs p = (true, none)) (r : Result)
    (hr : calculate_link_budget F p = .ok r) :
    (∀ v, p.tx_power_dbm = some v → r.inputs.tx_power_dbm = v) ∧
    (∀ v, p.wavelength_m = some v → r.inputs.wavelength_m = v) ∧
    (∀ v, p.tx_diameter_m = some v → r.inputs.tx_diameter_m = v) ∧
    (∀ v, p.rx_diameter_m = some v → r.inputs.rx_diameter_m = v) ∧
    (∀ v, p.distance_m = some v → r.inputs.distance_m = v) ∧
    r.inputs.rx_sensitivity_dbm = p.rx_sensitivity_dbm ∧
    (∀ v, p.rx_lna_gain_db = some v → r.inputs.rx_lna_gain_db = v) := by
  obtain ⟨tp, te, re, wl, td, rd, d, h1, h2, h3, h4, h5, h6, h7,
    hte, hte1, hre, hre1, hwl, htd, hrd, hd, hlna⟩ := validate_inputs_spec p h
  have hb := calculate_link_budget_ok F p tp te re wl td rd d
    h1 h2 h3 h4 h5 h6 h7 hte hte1 hre hre1 hwl htd hrd hd
  rw [hr] at hb
  obtain rfl := Except.ok.inj hb
  refine ⟨?_, ?_, ?_, ?_, ?_, ?_, ?_⟩
  · intro v hv
    rw [h1] at hv
    simp [budgetResult, Option.some.inj hv]
  · intro v hv
    rw [h4] at hv
    simp [budgetResult, Option.some.inj hv]
  · intro v hv
    rw [h5] at hv
    simp [budgetResult, Option.some.inj hv]
  · intro v hv
    rw [h6] at hv
    simp [budgetResult, Option.some.inj hv]
  · intro v hv
    rw [h7] at hv
    simp [budgetResult, Option.some.inj hv]
  · simp [budgetResult]
  · intro v hv
    simp [budgetResult, hv]

theorem c10_witness :
    sampleResult.inputs.tx_power_dbm = 0 ∧
    sampleResult.inputs.wavelength_m = 1 ∧
    sampleResult.inputs.distance_m = 1 ∧
    sampleResult.inputs.rx_sensitivity_dbm = sampleParams.rx_sensitivity_dbm ∧
    sampleResult.inputs.rx_lna_gain_db = 5 := by
  have h := c10_inputs_echo idOps sampleParams (by decide) sampleResult sample_budget_eq
  exact ⟨h.1 0 rfl, h.2.1 1 rfl, h.2.2.2.2.1 1 rfl, h.2.2.2.2.2.1, h.2.2.2.2.2.2 5 rfl⟩

/-- C9: swapping the transmitter triple (efficiency, diameter, fixed
pointing loss) with the receiver triple leaves the total loss, both
received powers and the link margin unchanged. -/
theorem c9_end_symmetry (F : FloatOps) (p : Params)
    (h : validate_inputs p = (true, none)) (r r' : Result)
    (hr : calculate_link_budget F p = .ok r)
    (hr' : calculate_link_budget F (swapEnds p) = .ok r') :
    r'.losses.total_loss_db = r.losses.total_loss_db ∧
    r'.received_power.power_dbm = r.received_power.power_dbm ∧
    r'.received_power_with_lna.power_dbm = r.received_power_with_lna.power_dbm ∧
    r'.link_margin.margin_db = r.link_margin.margin_db := by
  obtain ⟨tp, te, re, wl, td, rd, d, h1, h2, h3, h4, h5, h6, h7,
    hte, hte1, hre, hre1, hwl, htd, hrd, hd, hlna⟩ := validate_inputs_spec p h
  have hb := calculate_link_budget_ok F p tp te re wl td rd d
    h1 h2 h3 h4 h5 h6 h7 hte hte1 hre hre1 hwl htd hrd hd
  have hb' := calculate_link_budget_ok F (swapEnds p) tp re te wl rd td d
    h1 h3 h2 h4 h6 h5 h7 hre hre1 hte hte1 hwl hrd htd hd
  rw [hr] at hb
  rw [hr'] at hb'
  obtain rfl := Except.ok.inj hb
  obtain rfl := Except.ok.inj hb'
  have himpl : (swapEnds p).implementation_loss_db = p.implementation_loss_db := rfl
  have hcoup : (swapEnds p).coupling_loss_db = p.coupling_loss_db := rfl
  have htxp : (swapEnds p).tx_pointing_loss_db = p.rx_pointing_loss_db := rfl
  have hrxp : (swapEnds p).rx_pointing_loss_db = p.tx_pointing_loss_db := rfl
  have hsens : (swapEnds p).rx_sensitivity_dbm = p.rx_sensitivity_dbm := rfl
  have hlna' : (swapEnds p).rx_lna_gain_db = p.rx_lna_gain_db := rfl
  rw [himpl, hcoup, htxp, hrxp, hsens, hlna']
  refine ⟨?_, ?_, ?_, ?_⟩
  · simp only [budgetResult]
    ring
  · simp only [budgetResult]
    ring
  · simp only [budgetResult]
    ring
  · cases hs : p.rx_sensitivity_dbm with
    | none => simp [budgetResult, hs]
    | some s =>
      simp only [budgetResult, hs, Option.map_some]
      congr 1
      funext x
      ring

/-- An asymmetric valid parameter set (distinct TX and RX triples). -/
def asymParams : Params :=
  { tx_power_dbm := some 0, tx_efficiency := some 1, rx_efficiency := some 1,
    wavelength_m := some 1, tx_diameter_m := some 2, rx_diameter_m := some 3,
    distance_m := some 7, implementation_loss_db := some 1, coupling_loss_db := some 4,
    tx_pointing_loss_db := some 2, rx_pointing_loss_db := some 5,
    rx_sensitivity_dbm := some (-60), rx_lna_gain_db := some 20 }

/-- The result on `asymParams`. -/
def asymResult : Result :=
  budgetResult idOps 0 1 1 1 2 3 7 1 4 2 5 (some (-60)) 20

/-- The result on the end-swapped `asymParams`. -/
def asymSwapResult : Result :=
  budgetResult idOps 0 1 1 1 3 2 7 1 4 5 2 (some (-60)) 20

lemma asym_budget_eq :
    calculate_link_budget idOps asymParams = .ok asymResult :=
  calculate_link_budget_ok idOps asymParams 0 1 1 1 2 3 7
    rfl rfl rfl rfl rfl rfl rfl
    one_pos le_rfl one_pos le_rfl one_pos two_pos (by norm_num) (by norm_num)

lemma asym_swap_budget_eq :
    calculate_link_budget idOps (swapEnds asymParams) = .ok asymSwapResult :=
  calculate_link_budget_ok idOps (swapEnds asymParams) 0 1 1 1 3 2 7
    rfl rfl rfl rfl rfl rfl rfl
    one_pos le_rfl one_pos le_rfl one_pos (by norm_num) two_pos (by norm_num)

theorem c9_witness :
    asymSwapResult.losses.total_loss_db = asymResult.losses.total_loss_db ∧
    asymSwapResult.received_power.power_dbm = asymResult.received_power.power_dbm ∧
    asymSwapResult.received_power_with_lna.power_dbm =
      asymResult.received_power_with_lna.power_dbm ∧
    asymSwapResult.link_margin.margin_db = asymResult.link_margin.margin_db :=
  c9_end_symmetry idOps asymParams (by decide) asymResult asymSwapResult
    asym_budget_eq asym_swap_budget_eq

/-- Copy of `p` with its four optional loss terms replaced. -/
def withLossTerms (p : Params) (l1 l2 l3 l4 : Option ℚ) : Params :=
  { p with
    implementation_loss_db := l1
    coupling_loss_db := l2
    tx_pointing_loss_db := l3
    rx_pointing_loss_db := l4 }

/-- Copy of `p` with its fixed TX pointing loss replaced. -/
def withTxPointing (p : Params) (c : Option ℚ) : Params :=
  { p with tx_pointing_loss_db := c }

/-- C8: the validator performs no range check on the four optional loss
terms — replacing them by anything (negative included) leaves its verdict
unchanged — and the budget folds them as supplied into `total_loss_db`,
so a negative fixed pointing loss strictly increases the received power
relative to the same input with that loss set to zero. -/
theorem c8_loss_terms_unchecked :
    (∀ (p : Params) (l1 l2 l3 l4 : Option ℚ),
      validate_inputs (withLossTerms p l1 l2 l3 l4) = validate_inputs p) ∧
    (∀ (F : FloatOps) (p : Params), validate_inputs p = (true, none) →
      ∀ r, calculate_link_budget F p = .ok r →
        r.losses.total_loss_db = r.losses.path_loss_db +
          p.implementation_loss_db.getD 0 + p.coupling_loss_db.getD 0 +
          p.tx_pointing_loss_db.getD 0 + p.rx_pointing_loss_db.getD 0 ∧
        r.received_power.power_dbm = p.tx_power_dbm.getD 0 +
          r.antenna_gains.tx_gain_db + r.antenna_gains.rx_gain_db -
          r.losses.total_loss_db) ∧
    (∀ (F : FloatOps) (p : Params), validate_inputs p = (true, none) →
      ∀ (c : ℚ) (r r' : Result), c < 0 →
        calculate_link_budget F (withTxPointing p (some c)) = .ok r →
        calculate_link_budget F (withTxPointing p (some 0)) = .ok r' →
        r'.received_power.power_dbm < r.received_power.power_dbm) := by
  refine ⟨fun p l1 l2 l3 l4 => rfl, ?_, ?_⟩
  · intro F p h r hr
    obtain ⟨tp, te, re, wl, td, rd, d, h1, h2, h3, h4, h5, h6, h7,
      hte, hte1, hre, hre1, hwl, htd, hrd, hd, hlna⟩ := validate_inputs_spec p h
    have hb := calculate_link_budget_ok F p tp te re wl td rd d
      h1 h2 h3 h4 h5 h6 h7 hte hte1 hre hre1 hwl htd hrd hd
    rw [hr] at hb
    obtain rfl := Except.ok.inj hb
    constructor
    · simp only [budgetResult, h1]
    · simp only [budgetResult, h1, Option.getD_some]
  · intro F p h c r r' hc hr hr'
    obtain ⟨tp, te, re, wl, td, rd, d, h1, h2, h3, h4, h5, h6, h7,
      hte, hte1, hre, hre1, hwl, htd, hrd, hd, hlna⟩ := validate_inputs_spec p h
    have hb := calculate_link_budget_ok F (withTxPointing p (some c))
      tp te re wl td rd d h1 h2 h3 h4 h5 h6 h7 hte hte1 hre hre1 hwl htd hrd hd
    have hb' := calculate_link_budget_ok F (withTxPointing p (some 0))
      tp te re wl td rd d h1 h2 h3 h4 h5 h6 h7 hte hte1 hre hre1 hwl htd hrd hd
    rw [hr] at hb
    rw [hr'] at hb'
    obtain rfl := Except.ok.inj hb
    obtain rfl := Except.ok.inj hb'
    have htx : (withTxPointing p (some c)).tx_pointing_loss_db.getD 0 = c := rfl
    have htx' : (withTxPointing p (some 0)).tx_pointing_loss_db.getD 0 = 0 := rfl
    simp only [budgetResult, withTxPointing, Option.getD_some]
    linarith

/-- The result on `sampleParams` with a negative fixed TX pointing loss. -/
def negLossResult : Result :=
  budgetResult idOps 0 1 1 1 1 1 1 0 0 (-2) 0 (some 0) 5

lemma negloss_budget_eq :
    calculate_link_budget idOps (withTxPointing sampleParams (some (-2))) =
      .ok negLossResult :=
  calculate_link_budget_ok idOps (withTxPointing sampleParams (some (-2)))
    0 1 1 1 1 1 1 rfl rfl rfl rfl rfl rfl rfl
    one_pos le_rfl one_pos le_rfl one_pos one_pos one_pos one_pos

lemma zeroloss_budget_eq :
    calculate_link_budget idOps (withTxPointing sampleParams (some 0)) =
      .ok sampleResult :=
  calculate_link_budget_ok idOps (withTxPointing sampleParams (some 0))
    0 1 1 1 1 1 1 rfl rfl rfl rfl rfl rfl rfl
    one_pos le_rfl one_pos le_rfl one_pos one_pos one_pos one_pos

theorem c8_witness :
    sampleResult.received_power.power_dbm < negLossResult.received_power.power_dbm :=
  c8_loss_terms_unchecked.2.2 idOps sampleParams (by decide) (-2)
    negLossResult sampleResult (by norm_num) negloss_budget_eq zeroloss_budget_eq
